import Mathlib

/-!
Verification development for the Nuclear-LCOE repository.

Shallow embedding of the core computation modules:
  - `Annex Functions/Simple_Conversion_Functions.py`  (oxide-to-metal conversion)
  - `Annex Functions/Annex_Cost_Functions.py`         (energy/mass accounting and
    the front-end uranium-cost grid-search optimizer)
  - `PWR_Costs_computation.py`                        (fuel-cycle accounting,
    construction scheduler, discounted cash-flow LCOE)

Modelling conventions:
  - Python decimal float literals and exact rational arithmetic are embedded as
    `Rat`; quantities whose computation involves `math.log` (the optimizer's
    value function and everything downstream of it) are embedded over `Real`,
    the standard exact idealization of the float computation.
  - Python exceptions are embedded as `Except PyError`.  A Python call with a
    keyword argument the callee does not declare raises `TypeError`; reading a
    missing dict key raises `KeyError`; float division by zero raises
    `ZeroDivisionError`.  Keyword-argument names and dict keys are embedded as
    finite inductive types whose constructor names are the source identifiers.
  - Python `round` is round-half-to-even (`pyRound` below).
-/

/-- Python exception outcomes reachable in the embedded code. -/
inductive PyError where
  | typeError
  | keyError
  | zeroDivisionError
  | valueErrorInvalidProduct
  | valueErrorNoFeasible
  | valueErrorNoReactors
  | valueErrorNonPositiveEnergy
deriving DecidableEq, Repr

/-- The keyword-parameter names appearing in the signature of
`optimize_front_end_uranium_cost` and in its call sites in
`PWR_Costs_computation.py`. -/
inductive ParamName where
  | product_mass_kg
  | x_U_nat
  | x_U_product
  | price_U_nat_per_kg_USD
  | conversion_per_kgU_USD
  | price_SWU_per_SWU_USD
  | transport_U_nat_per_kg_per_km_USD
  | distance_U_nat_transport_km
  | tails_min
  | n_steps
  | transport_U_converted_per_kgU_per_km_USD
  | distance_U_converted_transport_km
deriving DecidableEq, Repr

/-- The dict keys read from the optimizer's result by its callers, together
with the keys the optimizer actually returns. -/
inductive ReturnKey where
  | M_U_nat_kg
  | x_tails_opt
  | cost_U_nat_USD
  | cost_transport_U_nat_USD
  | cost_conversion_USD
  | cost_enrichment_USD
  | cost_transport_U_converted_USD
deriving DecidableEq, Repr

/-- The ten fuel-cycle step names of the detailed breakdown dict
(`detailed_fuel_cycle_breakdown_USD_per_year`, source lines 274-285). -/
inductive FuelCycleStep where
  | U_nat
  | transport_U_nat
  | conversion
  | transport_U_converted
  | SWU
  | transport_U_enriched
  | fabrication
  | transport_fresh_fuel
  | back_end
  | transport_spent_fuel
deriving DecidableEq, Repr

/-- `ProjectParameters` dataclass (numeric fields; the purely descriptive
string fields `country`, `reactor_type`, `spent_fuel_backend` and the unused
mine-distance fields and the derived display-only field
`U_mass_per_assembly_kg` play no role in any computation and are omitted). -/
structure ProjectParameters where
  n_reactors : ℕ
  power_electric_per_reactor_MWe : ℚ
  net_capacity_factor : ℚ
  first_reactor_construction_time_years : ℚ
  delay_between_reactors_years : ℚ
  reactors_lifetime_years : ℤ
  x_U_nat : ℚ
  x_U_product : ℚ
  assemblies_per_core : ℕ
  fuel_mass_per_assembly_kg : ℚ
  batch_fraction : ℚ
  cycle_length_years : ℚ
  distance_U_nat_transport_km : ℚ
  distance_U_converted_transport_km : ℚ
  distance_U_enriched_transport_km : ℚ
  distance_fresh_fuel_transport_km : ℚ
  distance_spent_fuel_transport_km : ℚ
deriving DecidableEq, Repr

/-- `CostParameters` dataclass. -/
structure CostParameters where
  real_discount_rate : ℚ
  cost_per_reactor_USD : ℚ
  dismantling_cost_per_reactor_USD : ℚ
  exploitation_cost_per_year_per_reactor_USD : ℚ
  price_U_nat_per_kg_USD : ℚ
  transport_U_nat_per_kg_per_km_USD : ℚ
  conversion_per_kgU_USD : ℚ
  transport_U_converted_per_kgU_per_km_USD : ℚ
  price_SWU_per_SWU_USD : ℚ
  transport_U_enriched_per_kgU_per_km_USD : ℚ
  fabrication_per_kgFreshFuel_USD : ℚ
  transport_fuel_per_kgFreshFuel_per_km_USD : ℚ
  direct_disposal_per_kgSpentFuel_USD : ℚ
  transport_spent_fuel_per_kg_per_km_USD : ℚ
deriving DecidableEq, Repr

/-- Default `ProjectParameters()` values from the source. -/
def defaultProject : ProjectParameters where
  n_reactors := 4
  power_electric_per_reactor_MWe := 1200
  net_capacity_factor := 80 / 100
  first_reactor_construction_time_years := 7
  delay_between_reactors_years := 1
  reactors_lifetime_years := 60
  x_U_nat := 711 / 100000
  x_U_product := 48 / 1000
  assemblies_per_core := 163
  fuel_mass_per_assembly_kg := 534
  batch_fraction := 1 / 3
  cycle_length_years := 18 / 12
  distance_U_nat_transport_km := 5000
  distance_U_converted_transport_km := 1200
  distance_U_enriched_transport_km := 100
  distance_fresh_fuel_transport_km := 1000
  distance_spent_fuel_transport_km := 500

/-- Default `CostParameters()` values from the source. -/
def defaultCosts : CostParameters where
  real_discount_rate := 5 / 100
  cost_per_reactor_USD := 6000000000
  dismantling_cost_per_reactor_USD := 0
  exploitation_cost_per_year_per_reactor_USD := 200000000
  price_U_nat_per_kg_USD := 190
  transport_U_nat_per_kg_per_km_USD := 4 / 100000
  conversion_per_kgU_USD := 15
  transport_U_converted_per_kgU_per_km_USD := 5 / 100000
  price_SWU_per_SWU_USD := 140
  transport_U_enriched_per_kgU_per_km_USD := 1 / 1000
  fabrication_per_kgFreshFuel_USD := 250
  transport_fuel_per_kgFreshFuel_per_km_USD := 5 / 1000
  direct_disposal_per_kgSpentFuel_USD := 1300
  transport_spent_fuel_per_kg_per_km_USD := 6 / 1000

/-- `UO2_to_U` from `Simple_Conversion_Functions.py`. -/
def UO2_to_U (UO2_mass : ℚ) : ℚ :=
  let U_molar_mass : ℚ := 238 / 1000
  let O_molar_mass : ℚ := 16 / 1000
  let UO2_molar_mass := U_molar_mass + 2 * O_molar_mass
  let U_mass_fraction := U_molar_mass / UO2_molar_mass
  UO2_mass * U_mass_fraction

/-- `annual_energy_MWh` from `Annex_Cost_Functions.py`. -/
def annual_energy_MWh (p : ProjectParameters) : ℚ :=
  let total_power_MW := (p.n_reactors : ℚ) * p.power_electric_per_reactor_MWe
  let hours_year : ℚ := 8760
  total_power_MW * hours_year * p.net_capacity_factor

/-- `fuel_mass_per_reactorkg` from `Annex_Cost_Functions.py`. -/
def fuel_mass_per_reactorkg (p : ProjectParameters) : ℚ :=
  (p.assemblies_per_core : ℚ) * p.fuel_mass_per_assembly_kg

/-- `fresh_fuel_mass_per_cycle_per_reactor_kg` from `Annex_Cost_Functions.py`. -/
def fresh_fuel_mass_per_cycle_per_reactor_kg (p : ProjectParameters) : ℚ :=
  fuel_mass_per_reactorkg p * p.batch_fraction

/-- `annual_fresh_fuel_mass_kg` from `Annex_Cost_Functions.py`. -/
def annual_fresh_fuel_mass_kg (p : ProjectParameters) : ℚ :=
  fresh_fuel_mass_per_cycle_per_reactor_kg p * (p.n_reactors : ℚ) / p.cycle_length_years

/-- `annual_enriched_U_mass_kg` from `Annex_Cost_Functions.py`. -/
def annual_enriched_U_mass_kg (p : ProjectParameters) : ℚ :=
  UO2_to_U (annual_fresh_fuel_mass_kg p)

/-- Python 3 `round` to an integer: round half to even. -/
def pyRound (q : ℚ) : ℤ :=
  let f := ⌊q⌋
  let frac := q - (f : ℚ)
  if frac < 1 / 2 then f
  else if 1 / 2 < frac then f + 1
  else if f % 2 = 0 then f else f + 1

/-- One tuple of `_get_reactor_construction_schedule`'s result list. -/
structure ScheduleEntry where
  reactor_index : ℕ
  construction_start : ℤ
  construction_end : ℤ
  operation_end : ℤ
deriving DecidableEq, Repr

/-- `_get_reactor_construction_schedule` from `PWR_Costs_computation.py`
(lines 292-310). -/
def reactorSchedule (p : ProjectParameters) : List ScheduleEntry :=
  let first_construct := pyRound p.first_reactor_construction_time_years
  (List.range p.n_reactors).map fun (i : ℕ) =>
    let construction_start := pyRound ((i : ℚ) * p.delay_between_reactors_years) + 1
    let construction_end := construction_start + first_construct - 1
    { reactor_index := i
      construction_start := construction_start
      construction_end := construction_end
      operation_end := construction_end + p.reactors_lifetime_years }

/-- `_get_reactors_operational_in_year` from `PWR_Costs_computation.py`
(lines 313-322): count of schedule entries with
`construction_end < year <= operation_end`. -/
def reactorsOperationalInYear (p : ProjectParameters) (year : ℤ) : ℕ :=
  (reactorSchedule p).countP fun e =>
    decide (e.construction_end < year ∧ year ≤ e.operation_end)

/-- `_get_capex_spending_in_year` from `PWR_Costs_computation.py`
(lines 325-342): accumulates `cost_per_reactor / first_construct` (the
unrounded nominal duration) over reactors under construction in `year`. -/
def capexSpendingInYear (p : ProjectParameters) (c : CostParameters) (year : ℤ) : ℚ :=
  (reactorSchedule p).foldl
    (fun total_spending e =>
      if e.construction_start ≤ year ∧ year ≤ e.construction_end then
        total_spending + c.cost_per_reactor_USD / p.first_reactor_construction_time_years
      else total_spending)
    0

/-- Argument record of `optimize_front_end_uranium_cost`
(`Annex_Cost_Functions.py`, lines 52-63), with the source defaults
`tails_min = 0.0005`, `n_steps = 500` supplied at the call sites. -/
structure FrontEndArgs where
  product_mass_kg : ℝ
  x_U_nat : ℝ
  x_U_product : ℝ
  price_U_nat_per_kg_USD : ℝ
  conversion_per_kgU_USD : ℝ
  price_SWU_per_SWU_USD : ℝ
  transport_U_nat_per_kg_per_km_USD : ℝ
  distance_U_nat_transport_km : ℝ
  tails_min : ℝ
  n_steps : ℕ

/-- The optimizer's result dict (keys of `best_results`,
`Annex_Cost_Functions.py` lines 144-151). -/
structure FrontEndSolution where
  M_U_nat_kg : ℝ
  x_tails_opt : ℝ
  cost_U_nat_USD : ℝ
  cost_transport_U_nat_USD : ℝ
  cost_conversion_USD : ℝ
  cost_enrichment_USD : ℝ

/-- `_V_swu` from `Annex_Cost_Functions.py`:
`V(x) = (1 - 2x) * ln((1 - x) / x)`. -/
noncomputable def V_swu (x : ℝ) : ℝ :=
  (1 - 2 * x) * Real.log ((1 - x) / x)

/-- The grid candidate tails assay at loop index `i`:
`x_tails = tails_min + i * step` with `step = (x_U_nat - tails_min) / n_steps`. -/
noncomputable def xTails (a : FrontEndArgs) (i : ℕ) : ℝ :=
  a.tails_min + (i : ℝ) * ((a.x_U_nat - a.tails_min) / (a.n_steps : ℝ))

/-- Feed mass at candidate `i`:
`feed_mass_kg = product_mass_kg * (x_U_product - x_tails) / (x_U_nat - x_tails)`. -/
noncomputable def feedMass (a : FrontEndArgs) (i : ℕ) : ℝ :=
  a.product_mass_kg * (a.x_U_product - xTails a i) / (a.x_U_nat - xTails a i)

/-- SWU requirement at candidate `i`:
`product*V(x_product) + tails_mass*V(x_tails) - feed*V(x_U_nat)` with
`tails_mass = feed - product`. -/
noncomputable def swuRequired (a : FrontEndArgs) (i : ℕ) : ℝ :=
  a.product_mass_kg * V_swu a.x_U_product
    + (feedMass a i - a.product_mass_kg) * V_swu (xTails a i)
    - feedMass a i * V_swu a.x_U_nat

/-- The `best_results` dict built for candidate `i`
(`Annex_Cost_Functions.py` lines 134-151). -/
noncomputable def candidateSol (a : FrontEndArgs) (i : ℕ) : FrontEndSolution where
  M_U_nat_kg := feedMass a i
  x_tails_opt := xTails a i
  cost_U_nat_USD := feedMass a i * a.price_U_nat_per_kg_USD
  cost_transport_U_nat_USD :=
    feedMass a i * a.transport_U_nat_per_kg_per_km_USD * a.distance_U_nat_transport_km
  cost_conversion_USD := feedMass a i * a.conversion_per_kgU_USD
  cost_enrichment_USD := swuRequired a i * a.price_SWU_per_SWU_USD

/-- One loop iteration of the grid search: `none` when the candidate is
skipped by one of the three `continue` checks (near-vanishing denominator,
non-positive feed mass, non-positive SWU). -/
noncomputable def candidate (a : FrontEndArgs) (i : ℕ) : Option FrontEndSolution :=
  if |a.x_U_nat - xTails a i| < 1 / 10 ^ 8 then none
  else if feedMass a i ≤ 0 then none
  else if swuRequired a i ≤ 0 then none
  else some (candidateSol a i)

/-- The three feasibility checks of the loop body, as a predicate. -/
noncomputable def feasibleCandidate (a : FrontEndArgs) (i : ℕ) : Prop :=
  ¬ |a.x_U_nat - xTails a i| < 1 / 10 ^ 8 ∧ 0 < feedMass a i ∧ 0 < swuRequired a i

/-- `total_cost`: the sum of the four cost components, in the source's
association order. -/
def resultTotal (r : FrontEndSolution) : ℝ :=
  r.cost_U_nat_USD + r.cost_transport_U_nat_USD + r.cost_conversion_USD
    + r.cost_enrichment_USD

/-- One update of the running `(best_cost, best_results)` pair: a feasible
candidate replaces the best-so-far exactly when its total cost is strictly
smaller (`best_cost` starts at infinity, modelled by the `none` state). -/
noncomputable def stepFn (a : FrontEndArgs) (s : Option (ℝ × FrontEndSolution)) (i : ℕ) :
    Option (ℝ × FrontEndSolution) :=
  match candidate a i with
  | none => s
  | some r =>
    match s with
    | none => some (resultTotal r, r)
    | some p => if resultTotal r < p.1 then some (resultTotal r, r) else some p

/-- The `for i in range(n_steps)` grid-search loop. -/
noncomputable def gridSearch (a : FrontEndArgs) : Option (ℝ × FrontEndSolution) :=
  (List.range a.n_steps).foldl (stepFn a) none

/-- `optimize_front_end_uranium_cost` (`Annex_Cost_Functions.py` lines
101-160).  A non-positive product mass raises `ValueError` before anything
else; then `step = (x_U_nat - tails_min) / n_steps` raises
`ZeroDivisionError` when `n_steps = 0` (Python float division by zero);
then the grid search runs and `best_results is None` raises the
no-feasible-solution `ValueError`. -/
noncomputable def optimize_front_end_uranium_cost (a : FrontEndArgs) :
    Except PyError FrontEndSolution :=
  if a.product_mass_kg ≤ 0 then .error .valueErrorInvalidProduct
  else if a.n_steps = 0 then .error .zeroDivisionError
  else
    match gridSearch a with
    | none => .error .valueErrorNoFeasible
    | some p => .ok p.2

/-- Parameter names accepted by `optimize_front_end_uranium_cost`
(its `def` signature, `Annex_Cost_Functions.py` lines 52-63). -/
def optimizeAcceptedParams : List ParamName :=
  [.product_mass_kg, .x_U_nat, .x_U_product, .price_U_nat_per_kg_USD,
   .conversion_per_kgU_USD, .price_SWU_per_SWU_USD,
   .transport_U_nat_per_kg_per_km_USD, .distance_U_nat_transport_km,
   .tails_min, .n_steps]

/-- Keyword-argument names passed to `optimize_front_end_uranium_cost` by
`fuel_cycle_cost_USD_per_year` (`PWR_Costs_computation.py` lines 166-177),
`detailed_fuel_cycle_breakdown_USD_per_year` (lines 231-242) and `main`
(lines 558-569); all three call sites pass the identical kwarg list. -/
def fuelCycleCallKwargs : List ParamName :=
  [.product_mass_kg, .x_U_nat, .x_U_product, .price_U_nat_per_kg_USD,
   .conversion_per_kgU_USD, .price_SWU_per_SWU_USD,
   .transport_U_nat_per_kg_per_km_USD, .distance_U_nat_transport_km,
   .transport_U_converted_per_kgU_per_km_USD, .distance_U_converted_transport_km]

/-- Whether the call binds: Python raises `TypeError` when a keyword argument
is not a declared parameter of the callee. -/
def frontEndCallBindsOk : Bool :=
  fuelCycleCallKwargs.all fun k => decide (k ∈ optimizeAcceptedParams)

/-- Reading a key from the optimizer's result dict: the six keys of
`best_results` are present, any other requested key raises `KeyError`. -/
def frontEndGet (r : FrontEndSolution) (k : ReturnKey) : Except PyError ℝ :=
  match k with
  | .M_U_nat_kg => .ok r.M_U_nat_kg
  | .x_tails_opt => .ok r.x_tails_opt
  | .cost_U_nat_USD => .ok r.cost_U_nat_USD
  | .cost_transport_U_nat_USD => .ok r.cost_transport_U_nat_USD
  | .cost_conversion_USD => .ok r.cost_conversion_USD
  | .cost_enrichment_USD => .ok r.cost_enrichment_USD
  | .cost_transport_U_converted_USD => .error .keyError

/-- The shared call of `optimize_front_end_uranium_cost` made by the fuel-cycle
functions: the kwarg binding check comes first (the call site passes
`transport_U_converted_per_kgU_per_km_USD` and
`distance_U_converted_transport_km`, which the callee does not declare), and
only a binding call would run the optimizer body with the passed values and
the defaults `tails_min = 0.0005`, `n_steps = 500`. -/
noncomputable def callOptimizeForFuelCycle (p : ProjectParameters) (c : CostParameters) :
    Except PyError FrontEndSolution :=
  if frontEndCallBindsOk then
    optimize_front_end_uranium_cost
      { product_mass_kg := (annual_enriched_U_mass_kg p : ℝ)
        x_U_nat := (p.x_U_nat : ℝ)
        x_U_product := (p.x_U_product : ℝ)
        price_U_nat_per_kg_USD := (c.price_U_nat_per_kg_USD : ℝ)
        conversion_per_kgU_USD := (c.conversion_per_kgU_USD : ℝ)
        price_SWU_per_SWU_USD := (c.price_SWU_per_SWU_USD : ℝ)
        transport_U_nat_per_kg_per_km_USD := (c.transport_U_nat_per_kg_per_km_USD : ℝ)
        distance_U_nat_transport_km := (p.distance_U_nat_transport_km : ℝ)
        tails_min := 5 / 10000
        n_steps := 500 }
  else .error .typeError

/-- `fuel_cycle_cost_USD_per_year` (`PWR_Costs_computation.py` lines 148-225):
calls the optimizer, reads five front-end keys from its result (including the
absent `cost_transport_U_converted_USD`), then adds the enriched-transport,
fabrication, fresh-fuel-transport, back-end and spent-fuel-transport terms. -/
noncomputable def fuel_cycle_cost_USD_per_year (p : ProjectParameters) (c : CostParameters) :
    Except PyError ℝ :=
  let product_mass_kg : ℚ := annual_enriched_U_mass_kg p
  (callOptimizeForFuelCycle p c).bind fun front_end =>
  (frontEndGet front_end .cost_U_nat_USD).bind fun cost_U_nat =>
  (frontEndGet front_end .cost_transport_U_nat_USD).bind fun cost_transport_nat =>
  (frontEndGet front_end .cost_conversion_USD).bind fun cost_conversion =>
  (frontEndGet front_end .cost_transport_U_converted_USD).bind fun cost_transport_converted =>
  (frontEndGet front_end .cost_enrichment_USD).bind fun cost_swu =>
  let cost_transport_enriched : ℚ :=
    product_mass_kg * c.transport_U_enriched_per_kgU_per_km_USD
      * p.distance_U_enriched_transport_km
  let fresh_fuel_mass_UO2_kg : ℚ := annual_fresh_fuel_mass_kg p
  let cost_fabrication : ℚ := fresh_fuel_mass_UO2_kg * c.fabrication_per_kgFreshFuel_USD
  let cost_transport_fresh_fuel : ℚ :=
    fresh_fuel_mass_UO2_kg * c.transport_fuel_per_kgFreshFuel_per_km_USD
      * p.distance_fresh_fuel_transport_km
  let kg_spent_fuel : ℚ := fresh_fuel_mass_UO2_kg
  let cost_backend : ℚ := kg_spent_fuel * c.direct_disposal_per_kgSpentFuel_USD
  let cost_transport_spent_fuel : ℚ :=
    kg_spent_fuel * c.transport_spent_fuel_per_kg_per_km_USD
      * p.distance_spent_fuel_transport_km
  .ok (cost_U_nat + cost_transport_nat + cost_conversion + cost_transport_converted
    + cost_swu + (cost_transport_enriched : ℝ) + (cost_fabrication : ℝ)
    + (cost_transport_fresh_fuel : ℝ) + (cost_backend : ℝ)
    + (cost_transport_spent_fuel : ℝ))

/-- `detailed_fuel_cycle_breakdown_USD_per_year` (`PWR_Costs_computation.py`
lines 228-285): same optimizer call and key reads, returning the ten-entry
breakdown dict. -/
noncomputable def detailed_fuel_cycle_breakdown_USD_per_year
    (p : ProjectParameters) (c : CostParameters) :
    Except PyError (List (FuelCycleStep × ℝ)) :=
  let product_mass_kg : ℚ := annual_enriched_U_mass_kg p
  (callOptimizeForFuelCycle p c).bind fun front_end =>
  let fresh_fuel_mass_UO2_kg : ℚ := annual_fresh_fuel_mass_kg p
  (frontEndGet front_end .cost_U_nat_USD).bind fun cost_U_nat =>
  (frontEndGet front_end .cost_transport_U_nat_USD).bind fun cost_transport_nat =>
  (frontEndGet front_end .cost_conversion_USD).bind fun cost_conversion =>
  (frontEndGet front_end .cost_transport_U_converted_USD).bind fun cost_transport_converted =>
  (frontEndGet front_end .cost_enrichment_USD).bind fun cost_enrichment =>
  let cost_transport_enriched : ℚ :=
    product_mass_kg * c.transport_U_enriched_per_kgU_per_km_USD
      * p.distance_U_enriched_transport_km
  let cost_fabrication : ℚ := fresh_fuel_mass_UO2_kg * c.fabrication_per_kgFreshFuel_USD
  let cost_transport_fresh_fuel : ℚ :=
    fresh_fuel_mass_UO2_kg * c.transport_fuel_per_kgFreshFuel_per_km_USD
      * p.distance_fresh_fuel_transport_km
  let cost_back_end : ℚ := fresh_fuel_mass_UO2_kg * c.direct_disposal_per_kgSpentFuel_USD
  let cost_transport_spent_fuel : ℚ :=
    fresh_fuel_mass_UO2_kg * c.transport_spent_fuel_per_kg_per_km_USD
      * p.distance_spent_fuel_transport_km
  .ok [(.U_nat, cost_U_nat), (.transport_U_nat, cost_transport_nat),
    (.conversion, cost_conversion), (.transport_U_converted, cost_transport_converted),
    (.SWU, cost_enrichment), (.transport_U_enriched, (cost_transport_enriched : ℝ)),
    (.fabrication, (cost_fabrication : ℝ)),
    (.transport_fresh_fuel, (cost_transport_fresh_fuel : ℝ)),
    (.back_end, (cost_back_end : ℝ)),
    (.transport_spent_fuel, (cost_transport_spent_fuel : ℝ))]

/-- `max(operation_end for ... in schedule)` over a nonempty schedule. -/
def lastOperationYear (schedule : List ScheduleEntry) : ℤ :=
  match schedule.map (fun e => e.operation_end) with
  | [] => 0
  | x :: xs => xs.foldl max x

/-- The years `1 .. last` iterated by the cash-flow loops
(`range(1, last_operation_year + 1)`). -/
def projectYears (last : ℤ) : List ℤ :=
  (List.range last.toNat).map fun (k : ℕ) => (k : ℤ) + 1

/-- Discount factor `(1 + r) ** (-year)`. -/
noncomputable def discountFactor (r : ℚ) (year : ℤ) : ℝ :=
  ((1 : ℝ) + (r : ℝ)) ^ (-year)

/-- `compute_lcoe_USD_per_MWh` (`PWR_Costs_computation.py` lines 345-423):
raises on an empty schedule, then computes the annual fuel cost (whose
optimizer call raises `TypeError` at every call site in this repository),
then discounts costs and energy year by year, adds per-reactor dismantling,
and fails with the degenerate-schedule `ValueError` when the discounted
energy is non-positive. -/
noncomputable def compute_lcoe_USD_per_MWh (p : ProjectParameters) (c : CostParameters) :
    Except PyError ℝ :=
  let r := c.real_discount_rate
  let schedule := reactorSchedule p
  if schedule.isEmpty then .error .valueErrorNoReactors
  else
    let last_operation_year := lastOperationYear schedule
    let annual_opex_per_reactor : ℚ := c.exploitation_cost_per_year_per_reactor_USD
    (fuel_cycle_cost_USD_per_year p c).bind fun fuel_total =>
      let annual_fuel_per_reactor : ℝ := fuel_total / (p.n_reactors : ℝ)
      let annual_energy_per_reactor : ℚ := annual_energy_MWh p / (p.n_reactors : ℚ)
      let total_dismantling : ℚ := (p.n_reactors : ℚ) * c.dismantling_cost_per_reactor_USD
      let sums := (projectYears last_operation_year).foldl
        (fun (acc : ℝ × ℝ) year =>
          let discount_factor := discountFactor r year
          let year_capex : ℚ := capexSpendingInYear p c year
          let n_operational := reactorsOperationalInYear p year
          let year_opex : ℚ := (n_operational : ℚ) * annual_opex_per_reactor
          let year_fuel : ℝ := (n_operational : ℝ) * annual_fuel_per_reactor
          let year_energy : ℚ := (n_operational : ℚ) * annual_energy_per_reactor
          let year_cost : ℝ := (year_capex : ℝ) + (year_opex : ℝ) + year_fuel
          (acc.1 + year_cost * discount_factor, acc.2 + (year_energy : ℝ) * discount_factor))
        (0, 0)
      let discounted_costs := schedule.foldl
        (fun acc e =>
          if 0 < total_dismantling then
            acc + (c.dismantling_cost_per_reactor_USD : ℝ) * discountFactor r e.operation_end
          else acc)
        sums.1
      let discounted_energy := sums.2
      if discounted_energy ≤ 0 then .error .valueErrorNonPositiveEnergy
      else .ok (discounted_costs / discounted_energy)

/-- The five-field result of `compute_discounted_costs_breakdown`. -/
structure DiscountedBreakdown where
  discounted_capex_USD : ℝ
  discounted_opex_USD : ℝ
  discounted_fuel_USD : ℝ
  discounted_dismantling_USD : ℝ
  discounted_energy_MWh : ℝ

/-- `compute_discounted_costs_breakdown` (`PWR_Costs_computation.py` lines
426-494): the same year loop with the four cost categories and energy
accumulated separately; dismantling is added per reactor when its per-reactor
cost is positive. -/
noncomputable def compute_discounted_costs_breakdown
    (p : ProjectParameters) (c : CostParameters) :
    Except PyError DiscountedBreakdown :=
  let r := c.real_discount_rate
  let schedule := reactorSchedule p
  if schedule.isEmpty then .error .valueErrorNoReactors
  else
    let last_operation_year := lastOperationYear schedule
    let annual_opex_per_reactor : ℚ := c.exploitation_cost_per_year_per_reactor_USD
    (fuel_cycle_cost_USD_per_year p c).bind fun fuel_total =>
      let annual_fuel_per_reactor : ℝ := fuel_total / (p.n_reactors : ℝ)
      let annual_energy_per_reactor : ℚ := annual_energy_MWh p / (p.n_reactors : ℚ)
      let sums := (projectYears last_operation_year).foldl
        (fun (acc : ℝ × ℝ × ℝ × ℝ) year =>
          let discount_factor := discountFactor r year
          let year_capex : ℚ := capexSpendingInYear p c year
          let n_operational := reactorsOperationalInYear p year
          let year_opex : ℚ := (n_operational : ℚ) * annual_opex_per_reactor
          let year_fuel : ℝ := (n_operational : ℝ) * annual_fuel_per_reactor
          let year_energy : ℚ := (n_operational : ℚ) * annual_energy_per_reactor
          (acc.1 + (year_capex : ℝ) * discount_factor,
            acc.2.1 + (year_opex : ℝ) * discount_factor,
            acc.2.2.1 + year_fuel * discount_factor,
            acc.2.2.2 + (year_energy : ℝ) * discount_factor))
        (0, 0, 0, 0)
      let discounted_dismantling := schedule.foldl
        (fun acc e =>
          if 0 < c.dismantling_cost_per_reactor_USD then
            acc + (c.dismantling_cost_per_reactor_USD : ℝ) * discountFactor r e.operation_end
          else acc)
        (0 : ℝ)
      .ok { discounted_capex_USD := sums.1
            discounted_opex_USD := sums.2.1
            discounted_fuel_USD := sums.2.2.1
            discounted_dismantling_USD := discounted_dismantling
            discounted_energy_MWh := sums.2.2.2 }

/-- The fuel-cycle call site does not bind: it passes the two
converted-uranium-transport kwargs absent from the optimizer's signature. -/
lemma frontEndCallBindsOk_eq_false : frontEndCallBindsOk = false := rfl

/-- Every fuel-cycle optimizer call raises `TypeError`. -/
lemma callOptimizeForFuelCycle_typeError (p : ProjectParameters) (c : CostParameters) :
    callOptimizeForFuelCycle p c = .error .typeError := rfl

/-- `fuel_cycle_cost_USD_per_year` propagates the `TypeError` of its
optimizer call, for every parameter record. -/
lemma fuel_cycle_cost_typeError (p : ProjectParameters) (c : CostParameters) :
    fuel_cycle_cost_USD_per_year p c = .error .typeError := rfl

/-- `detailed_fuel_cycle_breakdown_USD_per_year` propagates the same
`TypeError`, for every parameter record. -/
lemma detailed_breakdown_typeError (p : ProjectParameters) (c : CostParameters) :
    detailed_fuel_cycle_breakdown_USD_per_year p c = .error .typeError := rfl

lemma reactorSchedule_length (p : ProjectParameters) :
    (reactorSchedule p).length = p.n_reactors := by
  simp [reactorSchedule]

/-- With at least one reactor the schedule is nonempty, so `compute_lcoe`
reaches the fuel-cycle call and propagates its `TypeError`. -/
lemma compute_lcoe_typeError (p : ProjectParameters) (c : CostParameters)
    (h : 1 ≤ p.n_reactors) :
    compute_lcoe_USD_per_MWh p c = .error .typeError := by
  rcases hs : reactorSchedule p with _ | ⟨e, t⟩
  · exfalso
    have := reactorSchedule_length p
    rw [hs] at this
    simp at this
    omega
  · simp only [compute_lcoe_USD_per_MWh, hs]
    simp [fuel_cycle_cost_typeError, Except.bind]

/-- Same propagation for `compute_discounted_costs_breakdown`. -/
lemma discounted_breakdown_typeError (p : ProjectParameters) (c : CostParameters)
    (h : 1 ≤ p.n_reactors) :
    compute_discounted_costs_breakdown p c = .error .typeError := by
  rcases hs : reactorSchedule p with _ | ⟨e, t⟩
  · exfalso
    have := reactorSchedule_length p
    rw [hs] at this
    simp at this
    omega
  · simp only [compute_discounted_costs_breakdown, hs]
    simp [fuel_cycle_cost_typeError, Except.bind]

/-- C1: with the documented default parameters (4 reactors of 1200 MWe, net
capacity factor 0.80, 6e9 USD per reactor, 5 percent real discount rate,
x_U_nat = 0.00711, x_U_product = 0.048), the claim says
`compute_lcoe_USD_per_MWh` returns a positive finite value and the four
discounted cost categories sum to LCOE times discounted energy.  On the code
this is false: the fuel-cycle functions pass two keyword arguments that
`optimize_front_end_uranium_cost` does not declare, so
`fuel_cycle_cost_USD_per_year`, `compute_lcoe_USD_per_MWh` and
`compute_discounted_costs_breakdown` all raise `TypeError` at the default
parameters instead of returning any value. -/
theorem default_parameters_raise_type_error :
    fuel_cycle_cost_USD_per_year defaultProject defaultCosts = .error .typeError ∧
    compute_lcoe_USD_per_MWh defaultProject defaultCosts = .error .typeError ∧
    compute_discounted_costs_breakdown defaultProject defaultCosts = .error .typeError :=
  ⟨rfl, rfl, rfl⟩

/-- C2: the claim says that whenever the fuel-cycle functions return
normally, the breakdown has exactly the ten fixed keys and the total is their
sum.  On the code they never return normally: for every parameter record
(with a well-defined cycle length, so that the annual-mass arithmetic before
the call is itself defined in Python), both functions raise `TypeError` at
the optimizer call, which rejects the two converted-uranium-transport keyword
arguments; the ten-key dict of the source (lines 274-285) is never built. -/
theorem fuel_breakdown_always_raises_type_error
    (p : ProjectParameters) (c : CostParameters)
    (_hcycle : p.cycle_length_years ≠ 0) :
    detailed_fuel_cycle_breakdown_USD_per_year p c = .error .typeError ∧
    fuel_cycle_cost_USD_per_year p c = .error .typeError :=
  ⟨detailed_breakdown_typeError p c, fuel_cycle_cost_typeError p c⟩

/-- Witness for C2 at the default parameters. -/
theorem fuel_breakdown_always_raises_type_error_witness :
    (defaultProject.cycle_length_years ≠ 0) ∧
    detailed_fuel_cycle_breakdown_USD_per_year defaultProject defaultCosts
      = .error .typeError :=
  ⟨by norm_num [defaultProject],
   (fuel_breakdown_always_raises_type_error defaultProject defaultCosts
     (by norm_num [defaultProject])).1⟩

/-- C3: the claim says that with `net_capacity_factor = 0` and at least one
reactor, `compute_lcoe_USD_per_MWh` fails with the explicit non-positive
discounted-energy (degenerate-schedule) condition.  On the code it never
reaches that check: the fuel-cycle cost is computed first and its optimizer
call raises `TypeError` (unaccepted keyword arguments), so the failure is a
`TypeError`, not the degenerate-schedule `ValueError`. -/
theorem zero_capacity_factor_lcoe_raises_type_error
    (p : ProjectParameters) (c : CostParameters)
    (hn : 1 ≤ p.n_reactors) (_hcycle : p.cycle_length_years ≠ 0)
    (_hcf : p.net_capacity_factor = 0) :
    compute_lcoe_USD_per_MWh p c = .error .typeError ∧
    PyError.typeError ≠ PyError.valueErrorNonPositiveEnergy :=
  ⟨compute_lcoe_typeError p c hn, by decide⟩

/-- Witness for C3 at the default parameters with the capacity factor zeroed. -/
theorem zero_capacity_factor_lcoe_raises_type_error_witness :
    (1 ≤ ({ defaultProject with net_capacity_factor := 0 } : ProjectParameters).n_reactors) ∧
    compute_lcoe_USD_per_MWh { defaultProject with net_capacity_factor := 0 } defaultCosts
      = .error .typeError :=
  ⟨by norm_num [defaultProject],
   (zero_capacity_factor_lcoe_raises_type_error
     { defaultProject with net_capacity_factor := 0 } defaultCosts
     (by norm_num [defaultProject]) (by norm_num [defaultProject]) rfl).1⟩

lemma foldl_if_count {α : Type} (P : α → Prop) [DecidablePred P] (k : ℚ) :
    ∀ (l : List α) (a : ℚ),
      l.foldl (fun acc e => if P e then acc + k else acc) a
        = a + ((l.countP fun e => decide (P e)) : ℚ) * k := by
  intro l
  induction l with
  | nil => intro a; simp
  | cons e t ih =>
    intro a
    rw [List.foldl_cons, List.countP_cons]
    by_cases h : P e
    · rw [if_pos h, ih]
      simp only [h, decide_eq_true_eq, if_true, decide_eq_false_iff_not, if_pos]
      push_cast
      ring
    · rw [if_neg h, ih]
      simp [h]

/-- C9: for every project, cost record and year, the per-year CAPEX spend
equals the number of reactors whose schedule entry satisfies
`construction_start <= year <= construction_end` times
`cost_per_reactor_USD / first_reactor_construction_time_years`, the divisor
being the nominal unrounded first-reactor construction duration for every
reactor. -/
theorem capex_spending_formula
    (p : ProjectParameters) (c : CostParameters) (year : ℤ) :
    capexSpendingInYear p c year =
      (((reactorSchedule p).countP fun e =>
          decide (e.construction_start ≤ year ∧ year ≤ e.construction_end)) : ℚ)
        * (c.cost_per_reactor_USD / p.first_reactor_construction_time_years) := by
  rw [capexSpendingInYear, foldl_if_count]
  simp

/-- The single-reactor project of the claim's concrete schedule-boundary
instance: default parameters with `n_reactors = 1`
(`first_reactor_construction_time_years = 7`, `reactors_lifetime_years = 60`). -/
def singleReactorProject : ProjectParameters :=
  { defaultProject with n_reactors := 1 }

/-- C5: every schedule entry for reactor index i has
`construction_start = round(i * delay) + 1`,
`construction_end = construction_start + round(first_construction_time) - 1`,
`operation_end = construction_end + lifetime`; the operational count at year
Y counts entries with `construction_end < Y <= operation_end`; and for a
single reactor with a 7-year build and 60-year lifetime the schedule is
(1, 7, 67) with operational count 1 exactly in years 8..67. -/
theorem construction_schedule_spec :
    (∀ (p : ProjectParameters), ∀ e ∈ reactorSchedule p,
        e.construction_start
            = pyRound ((e.reactor_index : ℚ) * p.delay_between_reactors_years) + 1 ∧
        e.construction_end
            = e.construction_start + pyRound p.first_reactor_construction_time_years - 1 ∧
        e.operation_end = e.construction_end + p.reactors_lifetime_years) ∧
    (∀ (p : ProjectParameters) (year : ℤ),
        reactorsOperationalInYear p year = (reactorSchedule p).countP fun e =>
          decide (e.construction_end < year ∧ year ≤ e.operation_end)) ∧
    reactorSchedule singleReactorProject =
      [{ reactor_index := 0, construction_start := 1, construction_end := 7,
         operation_end := 67 }] ∧
    ∀ year : ℤ, reactorsOperationalInYear singleReactorProject year =
      if 7 < year ∧ year ≤ 67 then 1 else 0 := by
  have hsingle : reactorSchedule singleReactorProject =
      [{ reactor_index := 0, construction_start := 1, construction_end := 7,
         operation_end := 67 }] := by
    simp only [reactorSchedule, singleReactorProject, defaultProject]
    norm_num [List.range_succ, pyRound]
  refine ⟨?_, ?_, hsingle, ?_⟩
  · intro p e he
    simp only [reactorSchedule, List.mem_map, List.mem_range] at he
    obtain ⟨i, hi, rfl⟩ := he
    refine ⟨rfl, ?_, rfl⟩
    simp [pyRound]
  · intro p year
    rfl
  · intro year
    rw [reactorsOperationalInYear, hsingle]
    by_cases h : (7 : ℤ) < year ∧ year ≤ 67
    · simp [List.countP_cons, h]
    · simp [List.countP_cons, h]

/-- Witness for C5: the single-reactor entry is in the schedule, satisfies
the per-index formulas, and year 8 has operational count 1. -/
theorem construction_schedule_spec_witness :
    (⟨0, 1, 7, 67⟩ : ScheduleEntry) ∈ reactorSchedule singleReactorProject ∧
    ((⟨0, 1, 7, 67⟩ : ScheduleEntry).construction_start
        = pyRound (((⟨0, 1, 7, 67⟩ : ScheduleEntry).reactor_index : ℚ)
            * singleReactorProject.delay_between_reactors_years) + 1 ∧
     (⟨0, 1, 7, 67⟩ : ScheduleEntry).construction_end
        = (⟨0, 1, 7, 67⟩ : ScheduleEntry).construction_start
            + pyRound singleReactorProject.first_reactor_construction_time_years - 1 ∧
     (⟨0, 1, 7, 67⟩ : ScheduleEntry).operation_end
        = (⟨0, 1, 7, 67⟩ : ScheduleEntry).construction_end
            + singleReactorProject.reactors_lifetime_years) ∧
    reactorsOperationalInYear singleReactorProject 8 =
      if (7 : ℤ) < 8 ∧ (8 : ℤ) ≤ 67 then 1 else 0 := by
  have hmem : (⟨0, 1, 7, 67⟩ : ScheduleEntry) ∈ reactorSchedule singleReactorProject := by
    have hsingle : reactorSchedule singleReactorProject =
        [{ reactor_index := 0, construction_start := 1, construction_end := 7,
           operation_end := 67 }] := by
      simp only [reactorSchedule, singleReactorProject, defaultProject]
      norm_num [List.range_succ, pyRound]
    rw [hsingle]
    exact List.mem_singleton.mpr rfl
  exact ⟨hmem, construction_schedule_spec.1 singleReactorProject _ hmem,
    construction_schedule_spec.2.2.2 8⟩

lemma candidateSol_M (a : FrontEndArgs) (i : ℕ) :
    (candidateSol a i).M_U_nat_kg = feedMass a i := rfl

lemma candidateSol_xt (a : FrontEndArgs) (i : ℕ) :
    (candidateSol a i).x_tails_opt = xTails a i := rfl

/-- A loop iteration yields a result exactly when the three feasibility
checks pass, and then the result is the candidate's dict. -/
lemma candidate_eq_some (a : FrontEndArgs) (i : ℕ) (r : FrontEndSolution) :
    candidate a i = some r ↔ feasibleCandidate a i ∧ r = candidateSol a i := by
  rw [candidate, feasibleCandidate]
  split_ifs with h1 h2 h3
  · constructor
    · intro h
      cases h
    · rintro ⟨⟨hne, _, _⟩, _⟩
      exact absurd h1 hne
  · constructor
    · intro h
      cases h
    · rintro ⟨⟨_, hf, _⟩, _⟩
      exact absurd h2 (not_le.mpr hf)
  · constructor
    · intro h
      cases h
    · rintro ⟨⟨_, _, hs⟩, _⟩
      exact absurd h3 (not_le.mpr hs)
  · constructor
    · intro h
      injection h with hh
      exact ⟨⟨h1, not_le.mp h2, not_le.mp h3⟩, hh.symm⟩
    · rintro ⟨_, rfl⟩
      rfl

lemma candidate_eq_none (a : FrontEndArgs) (i : ℕ) :
    candidate a i = none ↔ ¬ feasibleCandidate a i := by
  rw [candidate, feasibleCandidate]
  split_ifs with h1 h2 h3
  · exact iff_of_true rfl (fun hf => hf.1 h1)
  · exact iff_of_true rfl (fun hf => absurd h2 (not_le.mpr hf.2.1))
  · exact iff_of_true rfl (fun hf => absurd h3 (not_le.mpr hf.2.2))
  · exact iff_of_false (by simp) (not_not_intro ⟨h1, not_le.mp h2, not_le.mp h3⟩)

/-- Loop invariant of the grid search after processing the indices in `l`:
either no candidate so far was feasible, or the state holds a feasible
candidate's dict together with its total cost, minimal among all feasible
candidates processed so far. -/
def StateInv (a : FrontEndArgs) (l : List ℕ) (s : Option (ℝ × FrontEndSolution)) : Prop :=
  match s with
  | none => ∀ i ∈ l, candidate a i = none
  | some b => (∃ i ∈ l, candidate a i = some b.2) ∧ b.1 = resultTotal b.2 ∧
      ∀ i ∈ l, ∀ r, candidate a i = some r → b.1 ≤ resultTotal r

lemma stateInv_step (a : FrontEndArgs) (l : List ℕ) (j : ℕ)
    (s : Option (ℝ × FrontEndSolution)) (h : StateInv a l s) :
    StateInv a (l ++ [j]) (stepFn a s j) := by
  cases hc : candidate a j with
  | none =>
    cases s with
    | none =>
      simp only [stepFn, hc, StateInv] at h ⊢
      intro i hi
      rcases List.mem_append.mp hi with hil | hij
      · exact h i hil
      · rw [List.mem_singleton.mp hij]
        exact hc
    | some b =>
      simp only [stepFn, hc, StateInv] at h ⊢
      obtain ⟨⟨i0, hi0, hc0⟩, hbc, hmin⟩ := h
      refine ⟨⟨i0, List.mem_append_left _ hi0, hc0⟩, hbc, ?_⟩
      intro i hi r hr
      rcases List.mem_append.mp hi with hil | hij
      · exact hmin i hil r hr
      · rw [List.mem_singleton.mp hij, hc] at hr
        cases hr
  | some rj =>
    cases s with
    | none =>
      simp only [stepFn, hc, StateInv] at h ⊢
      refine ⟨⟨j, List.mem_append_right _ (List.mem_singleton.mpr rfl), hc⟩, by trivial, ?_⟩
      intro i hi r hr
      rcases List.mem_append.mp hi with hil | hij
      · rw [h i hil] at hr
        cases hr
      · rw [List.mem_singleton.mp hij, hc] at hr
        injection hr with hrr
        rw [hrr]
    | some b =>
      simp only [stepFn, hc, StateInv] at h ⊢
      obtain ⟨⟨i0, hi0, hc0⟩, hbc, hmin⟩ := h
      by_cases hlt : resultTotal rj < b.1
      · rw [if_pos hlt]
        refine ⟨⟨j, List.mem_append_right _ (List.mem_singleton.mpr rfl), hc⟩, by trivial, ?_⟩
        intro i hi r hr
        rcases List.mem_append.mp hi with hil | hij
        · exact le_trans (le_of_lt hlt) (hmin i hil r hr)
        · rw [List.mem_singleton.mp hij, hc] at hr
          injection hr with hrr
          rw [hrr]
      · rw [if_neg hlt]
        refine ⟨⟨i0, List.mem_append_left _ hi0, hc0⟩, hbc, ?_⟩
        intro i hi r hr
        rcases List.mem_append.mp hi with hil | hij
        · exact hmin i hil r hr
        · rw [List.mem_singleton.mp hij, hc] at hr
          injection hr with hrr
          rw [← hrr]
          exact not_lt.mp hlt

lemma foldl_stateInv (a : FrontEndArgs) :
    ∀ (rest done : List ℕ) (s : Option (ℝ × FrontEndSolution)),
      StateInv a done s → StateInv a (done ++ rest) (rest.foldl (stepFn a) s) := by
  intro rest
  induction rest with
  | nil =>
    intro done s h
    simpa using h
  | cons j t ih =>
    intro done s h
    rw [List.foldl_cons]
    have h1 := stateInv_step a done j s h
    have h2 := ih (done ++ [j]) (stepFn a s j) h1
    rwa [List.append_assoc, List.singleton_append] at h2

lemma gridSearch_stateInv (a : FrontEndArgs) :
    StateInv a (List.range a.n_steps) (gridSearch a) := by
  have h0 : StateInv a [] (none : Option (ℝ × FrontEndSolution)) := by
    simp only [StateInv]
    intro i hi
    cases hi
  have := foldl_stateInv a (List.range a.n_steps) [] none h0
  simpa using this

lemma gridSearch_some (a : FrontEndArgs) (b : ℝ × FrontEndSolution)
    (h : gridSearch a = some b) :
    (∃ i < a.n_steps, candidate a i = some b.2) ∧ b.1 = resultTotal b.2 ∧
      ∀ i < a.n_steps, ∀ r, candidate a i = some r → b.1 ≤ resultTotal r := by
  have hinv := gridSearch_stateInv a
  rw [h] at hinv
  simp only [StateInv] at hinv
  obtain ⟨⟨i, hi, hci⟩, hbc, hmin⟩ := hinv
  exact ⟨⟨i, List.mem_range.mp hi, hci⟩, hbc,
    fun i hi r hr => hmin i (List.mem_range.mpr hi) r hr⟩

lemma gridSearch_none (a : FrontEndArgs) (h : gridSearch a = none) :
    ∀ i < a.n_steps, candidate a i = none := by
  have hinv := gridSearch_stateInv a
  rw [h] at hinv
  simp only [StateInv] at hinv
  exact fun i hi => hinv i (List.mem_range.mpr hi)

/-- A successful optimizer run passed the two input checks and carries a
grid-search result. -/
lemma optimize_ok_elim (a : FrontEndArgs) (r : FrontEndSolution)
    (h : optimize_front_end_uranium_cost a = .ok r) :
    0 < a.product_mass_kg ∧ a.n_steps ≠ 0 ∧
      ∃ b, gridSearch a = some b ∧ b.2 = r := by
  rw [optimize_front_end_uranium_cost] at h
  by_cases h1 : a.product_mass_kg ≤ 0
  · rw [if_pos h1] at h
    simp at h
  · rw [if_neg h1] at h
    by_cases h2 : a.n_steps = 0
    · rw [if_pos h2] at h
      simp at h
    · rw [if_neg h2] at h
      cases hg : gridSearch a with
      | none =>
        rw [hg] at h
        simp at h
      | some b =>
        rw [hg] at h
        refine ⟨not_le.mp h1, h2, b, rfl, ?_⟩
        injection h

/-- Bounds of the grid candidate tails assays: every scanned tails assay lies
in `[tails_min, x_U_nat)`. -/
lemma xTails_bounds (a : FrontEndArgs) (_ht0 : 0 < a.tails_min)
    (htn : a.tails_min < a.x_U_nat) (i : ℕ) (hi : i < a.n_steps) :
    a.tails_min ≤ xTails a i ∧ xTails a i < a.x_U_nat := by
  have hn0 : a.n_steps ≠ 0 := by omega
  have hn : 0 < (a.n_steps : ℝ) := by exact_mod_cast Nat.pos_of_ne_zero hn0
  have hD : 0 < a.x_U_nat - a.tails_min := by linarith
  constructor
  · rw [xTails]
    have : 0 ≤ (i : ℝ) * ((a.x_U_nat - a.tails_min) / (a.n_steps : ℝ)) :=
      mul_nonneg (Nat.cast_nonneg i) (div_nonneg (le_of_lt hD) (le_of_lt hn))
    linarith
  · rw [xTails]
    have hi' : (i : ℝ) < (a.n_steps : ℝ) := by exact_mod_cast hi
    have hkey : (i : ℝ) * ((a.x_U_nat - a.tails_min) / (a.n_steps : ℝ))
        < a.x_U_nat - a.tails_min := by
      rw [mul_div_assoc']
      rw [div_lt_iff₀ hn]
      calc (i : ℝ) * (a.x_U_nat - a.tails_min)
          < (a.n_steps : ℝ) * (a.x_U_nat - a.tails_min) :=
            mul_lt_mul_of_pos_right hi' hD
        _ = (a.x_U_nat - a.tails_min) * (a.n_steps : ℝ) := by ring
    linarith

/-- Concrete optimizer input used to witness the optimizer theorems:
one enriched kilogram, assays 1/2 (natural), 3/4 (product), tails scan from
1/4 with a single grid step, all unit prices zero. -/
noncomputable def witnessArgs : FrontEndArgs where
  product_mass_kg := 1
  x_U_nat := 1 / 2
  x_U_product := 3 / 4
  price_U_nat_per_kg_USD := 0
  conversion_per_kgU_USD := 0
  price_SWU_per_SWU_USD := 0
  transport_U_nat_per_kg_per_km_USD := 0
  distance_U_nat_transport_km := 0
  tails_min := 1 / 4
  n_steps := 1

/-- The optimizer's result on `witnessArgs`: feed mass 2 kg at tails assay
1/4, all costs zero. -/
noncomputable def witnessSol : FrontEndSolution where
  M_U_nat_kg := 2
  x_tails_opt := 1 / 4
  cost_U_nat_USD := 0
  cost_transport_U_nat_USD := 0
  cost_conversion_USD := 0
  cost_enrichment_USD := 0

lemma V_swu_half : V_swu (1 / 2) = 0 := by
  rw [V_swu]
  norm_num

lemma V_swu_quarter : V_swu (1 / 4 : ℝ) = Real.log 3 / 2 := by
  rw [V_swu]
  rw [show ((1 : ℝ) - 1 / 4) / (1 / 4) = 3 by norm_num]
  ring

lemma V_swu_three_quarter : V_swu (3 / 4 : ℝ) = Real.log 3 / 2 := by
  rw [V_swu]
  rw [show ((1 : ℝ) - 3 / 4) / (3 / 4) = 3⁻¹ by norm_num]
  rw [Real.log_inv]
  ring

lemma witness_xTails : xTails witnessArgs 0 = 1 / 4 := by
  simp [xTails, witnessArgs]

lemma witness_feed : feedMass witnessArgs 0 = 2 := by
  rw [feedMass, witness_xTails]
  simp only [witnessArgs]
  norm_num

lemma witness_swu : swuRequired witnessArgs 0 = Real.log 3 := by
  rw [swuRequired, witness_feed, witness_xTails]
  simp only [witnessArgs]
  rw [V_swu_three_quarter, V_swu_quarter, V_swu_half]
  ring

lemma witness_feasible : feasibleCandidate witnessArgs 0 := by
  rw [feasibleCandidate, witness_xTails]
  refine ⟨?_, ?_, ?_⟩
  · simp only [witnessArgs]
    rw [show (1 : ℝ) / 2 - 1 / 4 = 1 / 4 by norm_num]
    rw [abs_of_pos (by norm_num)]
    norm_num
  · rw [witness_feed]
    norm_num
  · rw [witness_swu]
    exact Real.log_pos (by norm_num)

lemma witness_candidate : candidate witnessArgs 0 = some witnessSol := by
  have hsol : candidateSol witnessArgs 0 = witnessSol := by
    rw [candidateSol, witnessSol, witness_feed, witness_xTails]
    simp [witnessArgs]
  exact (candidate_eq_some witnessArgs 0 witnessSol).mpr ⟨witness_feasible, hsol.symm⟩

lemma witness_gridSearch :
    gridSearch witnessArgs = some (resultTotal witnessSol, witnessSol) := by
  rw [gridSearch]
  rw [show List.range witnessArgs.n_steps = [0] from rfl]
  rw [List.foldl_cons, List.foldl_nil]
  simp [stepFn, witness_candidate]

/-- Evaluation of the optimizer at the witness input. -/
lemma witness_optimize :
    optimize_front_end_uranium_cost witnessArgs = .ok witnessSol := by
  rw [optimize_front_end_uranium_cost]
  rw [if_neg (show ¬ witnessArgs.product_mass_kg ≤ 0 by norm_num [witnessArgs])]
  rw [if_neg (show ¬ witnessArgs.n_steps = 0 by norm_num [witnessArgs])]
  rw [witness_gridSearch]

/-- C4: whenever the optimizer succeeds on inputs with
`0 < tails_min < x_U_nat < x_U_product < 1` and positive product mass, the
returned tails assay lies in `[tails_min, x_U_nat)` and the returned feed
mass satisfies the enrichment mass balance
`feed * x_U_nat = product * x_U_product + (feed - product) * x_tails`
exactly (hence within any floating-point tolerance). -/
theorem optimizer_tails_range_and_mass_balance (a : FrontEndArgs) (r : FrontEndSolution)
    (ht0 : 0 < a.tails_min) (htn : a.tails_min < a.x_U_nat)
    (_hnp : a.x_U_nat < a.x_U_product) (_hp1 : a.x_U_product < 1)
    (_hprod : 0 < a.product_mass_kg)
    (hok : optimize_front_end_uranium_cost a = .ok r) :
    (a.tails_min ≤ r.x_tails_opt ∧ r.x_tails_opt < a.x_U_nat) ∧
    r.M_U_nat_kg * a.x_U_nat
      = a.product_mass_kg * a.x_U_product
        + (r.M_U_nat_kg - a.product_mass_kg) * r.x_tails_opt := by
  obtain ⟨_, _, b, hg, hb⟩ := optimize_ok_elim a r hok
  obtain ⟨⟨i, hi, hci⟩, _, _⟩ := gridSearch_some a b hg
  rw [hb] at hci
  obtain ⟨hfeas, hr⟩ := (candidate_eq_some a i r).mp hci
  subst hr
  rw [candidateSol_M, candidateSol_xt]
  refine ⟨xTails_bounds a ht0 htn i hi, ?_⟩
  have hd : a.x_U_nat - xTails a i ≠ 0 := by
    intro h0
    apply hfeas.1
    rw [h0, abs_zero]
    norm_num
  have hfd : feedMass a i * (a.x_U_nat - xTails a i)
      = a.product_mass_kg * (a.x_U_product - xTails a i) := by
    rw [feedMass, div_mul_cancel₀ _ hd]
  linear_combination hfd

/-- Witness for C4 at the concrete input `witnessArgs`. -/
theorem optimizer_tails_range_and_mass_balance_witness :
    ((1 : ℝ) / 4 ≤ witnessSol.x_tails_opt ∧ witnessSol.x_tails_opt < 1 / 2) ∧
    witnessSol.M_U_nat_kg * (1 / 2)
      = 1 * (3 / 4) + (witnessSol.M_U_nat_kg - 1) * witnessSol.x_tails_opt := by
  have h := optimizer_tails_range_and_mass_balance witnessArgs witnessSol
    (by norm_num [witnessArgs]) (by norm_num [witnessArgs]) (by norm_num [witnessArgs])
    (by norm_num [witnessArgs]) (by norm_num [witnessArgs]) witness_optimize
  simpa [witnessArgs] using h

/-- C8: a non-positive product mass makes the optimizer fail with the
invalid-argument condition (this check precedes the grid search in the
source), and a positive product mass never produces that condition. -/
theorem optimizer_invalid_product_mass (a : FrontEndArgs) :
    (a.product_mass_kg ≤ 0 →
      optimize_front_end_uranium_cost a = .error .valueErrorInvalidProduct) ∧
    (0 < a.product_mass_kg →
      optimize_front_end_uranium_cost a ≠ .error .valueErrorInvalidProduct) := by
  constructor
  · intro h
    rw [optimize_front_end_uranium_cost, if_pos h]
  · intro h
    rw [optimize_front_end_uranium_cost, if_neg (not_le.mpr h)]
    by_cases hn : a.n_steps = 0
    · rw [if_pos hn]
      simp
    · rw [if_neg hn]
      cases hg : gridSearch a with
      | none => simp
      | some b => simp

/-- Witness for C8: the invalid-argument failure at product mass -1 and its
absence at product mass 1. -/
theorem optimizer_invalid_product_mass_witness :
    optimize_front_end_uranium_cost { witnessArgs with product_mass_kg := -1 }
      = .error .valueErrorInvalidProduct ∧
    optimize_front_end_uranium_cost witnessArgs ≠ .error .valueErrorInvalidProduct :=
  ⟨(optimizer_invalid_product_mass _).1 (by show (-1 : ℝ) ≤ 0; norm_num),
   (optimizer_invalid_product_mass _).2 (by show (0 : ℝ) < 1; norm_num)⟩

/-- C10: under the claim's input hypotheses every tails assay the grid can
pass to the value function lies strictly between 0 and 1 (as do the two fixed
assays), so each `_V_swu` logarithm argument `(1 - x) / x` is strictly
positive, and the optimizer is total with the no-feasible-solution error as
its only possible failure. -/
theorem vswu_arguments_in_unit_interval (a : FrontEndArgs)
    (ht0 : 0 < a.tails_min) (htn : a.tails_min < a.x_U_nat)
    (hnp : a.x_U_nat < a.x_U_product) (hp1 : a.x_U_product < 1)
    (hprod : 0 < a.product_mass_kg) (hn : 1 ≤ a.n_steps) :
    (∀ i < a.n_steps,
      (0 < xTails a i ∧ xTails a i < 1) ∧ 0 < (1 - xTails a i) / xTails a i) ∧
    ((0 < a.x_U_nat ∧ a.x_U_nat < 1) ∧ 0 < (1 - a.x_U_nat) / a.x_U_nat) ∧
    ((0 < a.x_U_product ∧ a.x_U_product < 1) ∧
      0 < (1 - a.x_U_product) / a.x_U_product) ∧
    ∀ e, optimize_front_end_uranium_cost a = .error e → e = .valueErrorNoFeasible := by
  refine ⟨?_, ⟨⟨by linarith, by linarith⟩, div_pos (by linarith) (by linarith)⟩,
    ⟨⟨by linarith, hp1⟩, div_pos (by linarith) (by linarith)⟩, ?_⟩
  · intro i hi
    obtain ⟨hlo, hhi⟩ := xTails_bounds a ht0 htn i hi
    exact ⟨⟨by linarith, by linarith⟩, div_pos (by linarith) (by linarith)⟩
  · intro e he
    rw [optimize_front_end_uranium_cost, if_neg (not_le.mpr hprod),
      if_neg (by omega : ¬ a.n_steps = 0)] at he
    cases hg : gridSearch a with
    | none =>
      rw [hg] at he
      injection he with hh
      exact hh.symm
    | some b =>
      rw [hg] at he
      cases he

/-- Witness for C10 at the concrete input `witnessArgs`. -/
theorem vswu_arguments_in_unit_interval_witness :
    ((0 < xTails witnessArgs 0 ∧ xTails witnessArgs 0 < 1) ∧
      0 < (1 - xTails witnessArgs 0) / xTails witnessArgs 0) ∧
    ∀ e, optimize_front_end_uranium_cost witnessArgs = .error e →
      e = .valueErrorNoFeasible := by
  have h := vswu_arguments_in_unit_interval witnessArgs
    (by norm_num [witnessArgs]) (by norm_num [witnessArgs]) (by norm_num [witnessArgs])
    (by norm_num [witnessArgs]) (by norm_num [witnessArgs]) (by norm_num [witnessArgs])
  exact ⟨h.1 0 (by norm_num [witnessArgs]), h.2.2.2⟩

/-- The witness input with an empty grid (`n_steps = 0`). -/
noncomputable def zeroStepsArgs : FrontEndArgs :=
  { witnessArgs with n_steps := 0 }

/-- C7 counterexample: at a call with positive product mass and `n_steps = 0`
(an empty grid, so vacuously every candidate is skipped), the source raises
`ZeroDivisionError` at `step = (x_U_nat - tails_min) / n_steps`, not the
no-feasible-solution error the claim requires. -/
theorem grid_search_zero_steps_counterexample :
    0 < zeroStepsArgs.product_mass_kg ∧ zeroStepsArgs.n_steps = 0 ∧
    optimize_front_end_uranium_cost zeroStepsArgs = .error .zeroDivisionError ∧
    optimize_front_end_uranium_cost zeroStepsArgs ≠ .error .valueErrorNoFeasible := by
  have h3 : optimize_front_end_uranium_cost zeroStepsArgs = .error .zeroDivisionError := by
    rw [optimize_front_end_uranium_cost]
    rw [if_neg (show ¬ zeroStepsArgs.product_mass_kg ≤ 0 by
      show ¬ (1 : ℝ) ≤ 0; norm_num)]
    rw [if_pos (show zeroStepsArgs.n_steps = 0 from rfl)]
  refine ⟨by show (0 : ℝ) < 1; norm_num, rfl, h3, ?_⟩
  rw [h3]
  simp

/-- C7 (amended): with positive product mass, the optimizer returns a result
iff some grid index below `n_steps` passes all three feasibility checks, and
when the grid is nonempty (`n_steps >= 1`) and every candidate is skipped it
fails with the explicit no-feasible-solution error (a call with `n_steps = 0`
instead fails with a division-by-zero error before the scan). -/
theorem optimizer_success_iff_feasible_candidate (a : FrontEndArgs)
    (hprod : 0 < a.product_mass_kg) :
    ((∃ r, optimize_front_end_uranium_cost a = .ok r) ↔
      ∃ i < a.n_steps, feasibleCandidate a i) ∧
    (1 ≤ a.n_steps → (∀ i < a.n_steps, ¬ feasibleCandidate a i) →
      optimize_front_end_uranium_cost a = .error .valueErrorNoFeasible) := by
  constructor
  · constructor
    · rintro ⟨r, hok⟩
      obtain ⟨_, _, b, hg, hb⟩ := optimize_ok_elim a r hok
      obtain ⟨⟨i, hi, hci⟩, _, _⟩ := gridSearch_some a b hg
      exact ⟨i, hi, ((candidate_eq_some a i b.2).mp hci).1⟩
    · rintro ⟨i, hi, hfeas⟩
      have hn : a.n_steps ≠ 0 := by omega
      rw [optimize_front_end_uranium_cost, if_neg (not_le.mpr hprod), if_neg hn]
      cases hg : gridSearch a with
      | none =>
        have := gridSearch_none a hg i hi
        rw [(candidate_eq_some a i (candidateSol a i)).mpr ⟨hfeas, rfl⟩] at this
        cases this
      | some b => exact ⟨b.2, rfl⟩
  · intro hn hall
    rw [optimize_front_end_uranium_cost, if_neg (not_le.mpr hprod),
      if_neg (by omega : ¬ a.n_steps = 0)]
    cases hg : gridSearch a with
    | none => rfl
    | some b =>
      obtain ⟨⟨i, hi, hci⟩, _, _⟩ := gridSearch_some a b hg
      exact absurd ((candidate_eq_some a i b.2).mp hci).1 (hall i hi)

/-- Witness for C7 at the concrete input `witnessArgs`. -/
theorem optimizer_success_iff_feasible_candidate_witness :
    (0 : ℝ) < witnessArgs.product_mass_kg ∧
    ((∃ r, optimize_front_end_uranium_cost witnessArgs = .ok r) ↔
      ∃ i < witnessArgs.n_steps, feasibleCandidate witnessArgs i) :=
  ⟨by show (0 : ℝ) < 1; norm_num,
   (optimizer_success_iff_feasible_candidate witnessArgs
     (by show (0 : ℝ) < 1; norm_num)).1⟩

/-- The optimizer input with its SWU price replaced. -/
noncomputable def setPrice (a : FrontEndArgs) (q : ℝ) : FrontEndArgs :=
  { a with price_SWU_per_SWU_USD := q }

lemma feasible_setPrice (a : FrontEndArgs) (q : ℝ) (i : ℕ) :
    feasibleCandidate (setPrice a q) i ↔ feasibleCandidate a i := Iff.rfl

lemma resultTotal_candidateSol_setPrice (a : FrontEndArgs) (q : ℝ) (i : ℕ) :
    resultTotal (candidateSol (setPrice a q) i) =
      feedMass a i * a.price_U_nat_per_kg_USD
      + feedMass a i * a.transport_U_nat_per_kg_per_km_USD * a.distance_U_nat_transport_km
      + feedMass a i * a.conversion_per_kgU_USD
      + swuRequired a i * q := rfl

/-- C6: raising only the SWU price never lowers the optimizer's total
front-end cost (sum of the four returned cost components), and the set of
feasible grid candidates is unchanged. -/
theorem swu_price_monotonicity (a : FrontEndArgs) (p₁ p₂ : ℝ)
    (_h0 : 0 ≤ p₁) (h12 : p₁ ≤ p₂) :
    (∀ i, feasibleCandidate (setPrice a p₁) i ↔ feasibleCandidate (setPrice a p₂) i) ∧
    ∀ r₁, optimize_front_end_uranium_cost (setPrice a p₁) = .ok r₁ →
      ∃ r₂, optimize_front_end_uranium_cost (setPrice a p₂) = .ok r₂ ∧
        resultTotal r₁ ≤ resultTotal r₂ := by
  constructor
  · intro i
    rw [feasible_setPrice, feasible_setPrice]
  · intro r₁ hok₁
    obtain ⟨hprod, hn, b₁, hg₁, hb₁⟩ := optimize_ok_elim _ _ hok₁
    obtain ⟨⟨i₁, hi₁, hc₁⟩, hbc₁, hmin₁⟩ := gridSearch_some _ _ hg₁
    have hfeas₁ : feasibleCandidate a i₁ :=
      ((candidate_eq_some _ i₁ b₁.2).mp hc₁).1
    cases hg₂ : gridSearch (setPrice a p₂) with
    | none =>
      have hnone := gridSearch_none _ hg₂ i₁ hi₁
      rw [(candidate_eq_some (setPrice a p₂) i₁ (candidateSol (setPrice a p₂) i₁)).mpr
        ⟨hfeas₁, rfl⟩] at hnone
      cases hnone
    | some b₂ =>
      have hok₂ : optimize_front_end_uranium_cost (setPrice a p₂) = .ok b₂.2 := by
        have hprod₂ : ¬ (setPrice a p₂).product_mass_kg ≤ 0 := not_le.mpr hprod
        have hn₂ : ¬ (setPrice a p₂).n_steps = 0 := hn
        rw [optimize_front_end_uranium_cost, if_neg hprod₂, if_neg hn₂, hg₂]
      obtain ⟨⟨i₂, hi₂, hc₂⟩, hbc₂, _⟩ := gridSearch_some _ _ hg₂
      obtain ⟨hfeas₂, hr₂⟩ := (candidate_eq_some _ i₂ b₂.2).mp hc₂
      refine ⟨b₂.2, hok₂, ?_⟩
      have hc₁i₂ : candidate (setPrice a p₁) i₂
          = some (candidateSol (setPrice a p₁) i₂) :=
        (candidate_eq_some _ i₂ _).mpr ⟨hfeas₂, rfl⟩
      have hmin := hmin₁ i₂ hi₂ _ hc₁i₂
      have hswu : 0 < swuRequired a i₂ := hfeas₂.2.2
      have hdiff : resultTotal (candidateSol (setPrice a p₁) i₂)
          ≤ resultTotal (candidateSol (setPrice a p₂) i₂) := by
        rw [resultTotal_candidateSol_setPrice, resultTotal_candidateSol_setPrice]
        have := mul_le_mul_of_nonneg_left h12 (le_of_lt hswu)
        linarith
      calc resultTotal r₁ = b₁.1 := by rw [hbc₁, hb₁]
        _ ≤ resultTotal (candidateSol (setPrice a p₁) i₂) := hmin
        _ ≤ resultTotal (candidateSol (setPrice a p₂) i₂) := hdiff
        _ = resultTotal b₂.2 := by rw [hr₂]

/-- Witness for C6: the witness input at SWU prices 0 and 1. -/
theorem swu_price_monotonicity_witness :
    ∃ r₂, optimize_front_end_uranium_cost (setPrice witnessArgs 1) = .ok r₂ ∧
      resultTotal witnessSol ≤ resultTotal r₂ :=
  (swu_price_monotonicity witnessArgs 0 1 (by norm_num) (by norm_num)).2
    witnessSol witness_optimize
